import Mathlib

/-!
Shallow embedding of `PandemicAnalyzer.py` (current version under
`src/python/`, older version under `src/`).

The script reads daily CSV snapshots of COVID-19 case counts, builds one
table per country with a derived `Active` column, stores per-country /
per-metric series as ROOT `TH1F` histograms in a `.root` container file,
renders plots, and fits a logistic curve to the US confirmed series.

CSV rows are modelled as records with rational-valued counts, dataframes
as column-indexed families of value lists, ROOT histograms as records
carrying per-bin contents and errors, and the `.root` container as an
association list of named histograms.  Real-valued arithmetic (the
square root in the error heuristic, the exponential in the fit model) is
modelled over `ℝ`.
-/

namespace PandemicModel

/-- One row of a daily snapshot CSV: place, region, the three reported
counts and the last-update timestamp (columns of the CSVs read by
`getDataForCountry`). -/
structure Row where
  place : String
  region : String
  confirmed : ℚ
  deaths : ℚ
  recovered : ℚ
  lastUpdate : String
deriving DecidableEq

/-- A row of the per-country table after the prep loop added the derived
`Active` column (`df['Active'] = df['Confirmed'] - df['Recovered'] -
df['Deaths']`). -/
structure ARow extends Row where
  active : ℚ
deriving DecidableEq

/-- The column assignment `df['Active'] = df['Confirmed'] -
df['Recovered'] - df['Deaths']` on one row (line 210 of
`src/python/PandemicAnalyzer.py`). -/
def addActive (r : Row) : ARow :=
  { r with active := r.confirmed - r.recovered - r.deaths }

/-- Constant `PLACE_KEY`. -/
def PLACE_KEY : String := "Place"

/-- Constant `DATA_KEYS_TO_PLOT`. -/
def DATA_KEYS_TO_PLOT : List String := ["Confirmed", "Active"]

/-- Constant `COUNTRY_KEYS`. -/
def COUNTRY_KEYS : List String :=
["USA",
 "Italy",
 "France",
 "Switzerland",
 "Mainland China",
 "Iran",
 "Spain",
 "South Korea",
 "Taiwan",
 "Germany",
 "United Kingdom",
 "India"]

/-- Function `getDataForCountry`: `df.loc[df[PLACE_KEY] == countryString]`, the
rows of one parsed snapshot whose `Place` column equals the country
string, in file order.  (The Python function also performs the CSV read;
here the parsed snapshot is the argument.) -/
def getDataForCountry (csv : List Row) (countryString : String) : List Row :=
  csv.filter (fun r => r.place == countryString)

/-- Column access `df[column]` on the per-country table: the numeric
columns used by the script. -/
def ARow.col (r : ARow) (key : String) : ℚ :=
  if key = "Confirmed" then r.confirmed
  else if key = "Deaths" then r.deaths
  else if key = "Recovered" then r.recovered
  else if key = "Active" then r.active
  else 0

/-- A dataframe as seen by the histogram builders: `df[column].tolist()`
for each column name. -/
def dfColumns (rows : List ARow) : String → List ℚ :=
  fun key => rows.map (fun r => r.col key)

/-- The per-country table built by the prep loop in `makeAllHistograms`
(lines 204-213): for each snapshot file index `ii` in order, filter the
snapshot to the country, add the `Active` column, and concatenate; the
loop variable `data` ends up as `pd.concat(dfList)`. -/
def countryData (snaps : List (List Row)) (country : String) : List ARow :=
  (snaps.map (fun csv => (getDataForCountry csv country).map addActive)).flatten

/-! ### ROOT TH1F model

A `TH1F` with `n` bins has addressable bins `0 .. n+1`: bin `0` is the
underflow bin and bin `n+1` the overflow bin.  `SetBinContent` /
`SetBinError` on a bin index beyond the overflow bin are ignored.
Contents are modelled over `ℚ` (exact arithmetic in place of `float`),
errors over `ℝ` because the error heuristic takes a square root. -/

/-- ROOT `TH1F`: name, title, number of (non-under/overflow) bins, axis
range, per-bin content and per-bin error, axis titles. -/
structure TH1F where
  name : String
  title : String
  nbins : ℕ
  xlo : ℚ
  xhi : ℚ
  content : ℕ → ℚ
  error : ℕ → ℝ
  xTitle : String
  yTitle : String

/-- Method `TH1F::SetBinContent`: writes bin `i` if it is within range
(underflow through overflow), otherwise does nothing. -/
def TH1F.setBinContent (h : TH1F) (i : ℕ) (v : ℚ) : TH1F :=
  if i ≤ h.nbins + 1 then
    { h with content := fun j => if j = i then v else h.content j }
  else h

/-- Method `TH1F::SetBinError`: writes the error of bin `i` if it is within
range, otherwise does nothing. -/
def TH1F.setBinError (h : TH1F) (i : ℕ) (e : ℝ) : TH1F :=
  if i ≤ h.nbins + 1 then
    { h with error := fun j => if j = i then e else h.error j }
  else h

/-- A freshly constructed `ROOT.TH1F(name, title, nbins, xlo, xhi)`:
all bin contents and errors are zero. -/
noncomputable def TH1F.mk0 (name title : String) (nbins : ℕ) (xlo xhi : ℚ) : TH1F :=
  { name := name, title := title, nbins := nbins, xlo := xlo, xhi := xhi,
    content := fun _ => 0, error := fun _ => 0, xTitle := "", yTitle := "" }

/-- Local `dataScaleFactor = 1.0` of `makeHistogramFromDataFrameColumn`. -/
def dataScaleFactor : ℚ := 1

/-- Local `errorScaleFactor = 0.10` of `makeHistogramFromDataFrameColumn`. -/
def errorScaleFactor : ℚ := 1/10

/-- The `datum` assigned in iteration `ii` of the
`makeHistogramFromDataFrameColumn` loop: `dataScaleFactor*xData[ii]`. -/
def histDatum (xData : List ℚ) (ii : ℕ) : ℚ :=
  dataScaleFactor * xData.getD ii 0

/-- The `error` assigned in iteration `ii` of the
`makeHistogramFromDataFrameColumn` loop:
`errorScaleFactor*datum + math.sqrt(datum)`. -/
noncomputable def histError (xData : List ℚ) (ii : ℕ) : ℝ :=
  (errorScaleFactor : ℝ) * (histDatum xData ii : ℝ) + Real.sqrt (histDatum xData ii : ℝ)

/-- One iteration of the `for ii in range(nPoints)` loop of
`makeHistogramFromDataFrameColumn`: `h.SetBinContent(ii+1, datum);
h.SetBinError(ii+1, error)` ("zeroth bin is underflow bin, so add 1"). -/
noncomputable def histBody (xData : List ℚ) (h : TH1F) (ii : ℕ) : TH1F :=
  (h.setBinContent (ii + 1) (histDatum xData ii)).setBinError (ii + 1) (histError xData ii)

/-- Function `makeHistogramFromDataFrameColumn(dataframe, column, tag)` (current
version, lines 80-106): builds `TH1F('h_'+column+'_'+tag, ..., nPoints+1,
0, nPoints+1)` and, for each `ii < nPoints`, sets bin `ii+1` (bin 0 being
the underflow bin) to `dataScaleFactor*xData[ii]` with error
`errorScaleFactor*datum + sqrt(datum)`. -/
noncomputable def makeHistogramFromDataFrameColumn
    (dataframe : String → List ℚ) (column : String) (tag : String) : TH1F :=
  let xData := dataframe column
  let nPoints := xData.length
  let h : TH1F :=
    { TH1F.mk0 ("h_" ++ column ++ "_" ++ tag) ("h_" ++ column ++ "_" ++ tag)
        (nPoints + 1) 0 (nPoints + 1) with
      title := tag, yTitle := column, xTitle := "days since Feb 25th" }
  (List.range nPoints).foldl (histBody xData) h

/-- One iteration of the loop of the older `makePlotFromDataFrameColumn`:
`h.SetBinContent(ii, xData[ii])` (no `+1`, no error). -/
def plotBody (xData : List ℚ) (h : TH1F) (ii : ℕ) : TH1F :=
  h.setBinContent ii (xData.getD ii 0)

/-- Function `makePlotFromDataFrameColumn(dataframe, column)` (older version,
`src/PandemicAnalyzer.py` lines 39-47): builds `TH1F('h_'+column, ...,
nPoints, 0, nPoints)` and, for each `ii < nPoints`, sets bin `ii`
(so day 0 lands in the underflow bin) to `xData[ii]`; no errors are set. -/
noncomputable def makePlotFromDataFrameColumn
    (dataframe : String → List ℚ) (column : String) : TH1F :=
  let xData := dataframe column
  let nPoints := xData.length
  let h : TH1F := TH1F.mk0 ("h_" ++ column) ("h_" ++ column) nPoints 0 nPoints
  (List.range nPoints).foldl (plotBody xData) h

/-! ### Characterization of the histogram builders -/

theorem TH1F.setBinContent_nbins (h : TH1F) (i : ℕ) (v : ℚ) :
    (h.setBinContent i v).nbins = h.nbins := by
  unfold TH1F.setBinContent; split <;> rfl

theorem TH1F.setBinError_nbins (h : TH1F) (i : ℕ) (e : ℝ) :
    (h.setBinError i e).nbins = h.nbins := by
  unfold TH1F.setBinError; split <;> rfl

theorem TH1F.setBinContent_error (h : TH1F) (i : ℕ) (v : ℚ) :
    (h.setBinContent i v).error = h.error := by
  unfold TH1F.setBinContent; split <;> rfl

theorem TH1F.setBinError_content (h : TH1F) (i : ℕ) (e : ℝ) :
    (h.setBinError i e).content = h.content := by
  unfold TH1F.setBinError; split <;> rfl

theorem TH1F.setBinContent_content (h : TH1F) (i : ℕ) (v : ℚ) (hi : i ≤ h.nbins + 1) :
    (h.setBinContent i v).content = fun j => if j = i then v else h.content j := by
  unfold TH1F.setBinContent; rw [if_pos hi]

theorem TH1F.setBinError_error (h : TH1F) (i : ℕ) (e : ℝ) (hi : i ≤ h.nbins + 1) :
    (h.setBinError i e).error = fun j => if j = i then e else h.error j := by
  unfold TH1F.setBinError; rw [if_pos hi]

theorem foldl_histBody_nbins (xData : List ℚ) :
    ∀ (m : ℕ) (h : TH1F),
      ((List.range m).foldl (histBody xData) h).nbins = h.nbins := by
  intro m
  induction m with
  | zero => intro h; rfl
  | succ m ih =>
      intro h
      rw [List.range_succ, List.foldl_append, List.foldl_cons, List.foldl_nil]
      simp only [histBody]
      rw [TH1F.setBinError_nbins, TH1F.setBinContent_nbins, ih]

theorem foldl_plotBody_nbins (xData : List ℚ) :
    ∀ (m : ℕ) (h : TH1F),
      ((List.range m).foldl (plotBody xData) h).nbins = h.nbins := by
  intro m
  induction m with
  | zero => intro h; rfl
  | succ m ih =>
      intro h
      rw [List.range_succ, List.foldl_append, List.foldl_cons, List.foldl_nil]
      simp only [plotBody]
      rw [TH1F.setBinContent_nbins, ih]

theorem foldl_histBody_content (xData : List ℚ) :
    ∀ (m : ℕ) (h : TH1F), m ≤ h.nbins →
      ((List.range m).foldl (histBody xData) h).content
        = fun j => if 1 ≤ j ∧ j ≤ m then histDatum xData (j - 1) else h.content j := by
  intro m
  induction m with
  | zero =>
      intro h _
      funext j
      rw [List.range_zero, List.foldl_nil, if_neg (by omega)]
  | succ m ih =>
      intro h hm
      rw [List.range_succ, List.foldl_append, List.foldl_cons, List.foldl_nil]
      simp only [histBody]
      rw [TH1F.setBinError_content, TH1F.setBinContent_content _ _ _
        (by rw [foldl_histBody_nbins]; omega), ih h (by omega)]
      funext j
      dsimp only
      split_ifs <;> first | rfl | omega | simp_all [Nat.add_sub_cancel]

theorem foldl_histBody_error (xData : List ℚ) :
    ∀ (m : ℕ) (h : TH1F), m ≤ h.nbins →
      ((List.range m).foldl (histBody xData) h).error
        = fun j => if 1 ≤ j ∧ j ≤ m then histError xData (j - 1) else h.error j := by
  intro m
  induction m with
  | zero =>
      intro h _
      funext j
      rw [List.range_zero, List.foldl_nil, if_neg (by omega)]
  | succ m ih =>
      intro h hm
      rw [List.range_succ, List.foldl_append, List.foldl_cons, List.foldl_nil]
      simp only [histBody]
      rw [TH1F.setBinError_error _ _ _
        (by rw [TH1F.setBinContent_nbins, foldl_histBody_nbins]; omega),
        TH1F.setBinContent_error, ih h (by omega)]
      funext j
      dsimp only
      split_ifs <;> first | rfl | omega | simp_all [Nat.add_sub_cancel]

theorem foldl_plotBody_content (xData : List ℚ) :
    ∀ (m : ℕ) (h : TH1F), m ≤ h.nbins + 1 →
      ((List.range m).foldl (plotBody xData) h).content
        = fun j => if j < m then xData.getD j 0 else h.content j := by
  intro m
  induction m with
  | zero =>
      intro h _
      funext j
      rw [List.range_zero, List.foldl_nil, if_neg (by omega)]
  | succ m ih =>
      intro h hm
      rw [List.range_succ, List.foldl_append, List.foldl_cons, List.foldl_nil]
      simp only [plotBody]
      rw [TH1F.setBinContent_content _ _ _
        (by rw [foldl_plotBody_nbins]; omega), ih h (by omega)]
      funext j
      dsimp only
      split_ifs <;> first | rfl | omega | simp_all

/-- Bin contents of the current builder: bin `j` holds
`dataScaleFactor * xData[j-1]` for `1 ≤ j ≤ nPoints`, every other bin
(underflow bin 0 included) is zero. -/
theorem makeHistogram_content (dataframe : String → List ℚ) (column tag : String) (j : ℕ) :
    (makeHistogramFromDataFrameColumn dataframe column tag).content j
      = if 1 ≤ j ∧ j ≤ (dataframe column).length
        then histDatum (dataframe column) (j - 1) else 0 := by
  unfold makeHistogramFromDataFrameColumn
  rw [foldl_histBody_content (dataframe column) (dataframe column).length _
    (Nat.le_succ (dataframe column).length)]
  rfl

/-- Bin errors of the current builder: bin `j` holds
`histError xData (j-1)` for `1 ≤ j ≤ nPoints`, every other bin is zero. -/
theorem makeHistogram_error (dataframe : String → List ℚ) (column tag : String) (j : ℕ) :
    (makeHistogramFromDataFrameColumn dataframe column tag).error j
      = if 1 ≤ j ∧ j ≤ (dataframe column).length
        then histError (dataframe column) (j - 1) else 0 := by
  unfold makeHistogramFromDataFrameColumn
  rw [foldl_histBody_error (dataframe column) (dataframe column).length _
    (Nat.le_succ (dataframe column).length)]
  rfl

/-- The current builder allocates `nPoints + 1` bins. -/
theorem makeHistogram_nbins (dataframe : String → List ℚ) (column tag : String) :
    (makeHistogramFromDataFrameColumn dataframe column tag).nbins
      = (dataframe column).length + 1 := by
  unfold makeHistogramFromDataFrameColumn
  rw [foldl_histBody_nbins]
  rfl

theorem TH1F.setBinContent_name (h : TH1F) (i : ℕ) (v : ℚ) :
    (h.setBinContent i v).name = h.name := by
  unfold TH1F.setBinContent; split <;> rfl

theorem TH1F.setBinError_name (h : TH1F) (i : ℕ) (e : ℝ) :
    (h.setBinError i e).name = h.name := by
  unfold TH1F.setBinError; split <;> rfl

theorem foldl_histBody_name (xData : List ℚ) :
    ∀ (m : ℕ) (h : TH1F),
      ((List.range m).foldl (histBody xData) h).name = h.name := by
  intro m
  induction m with
  | zero => intro h; rfl
  | succ m ih =>
      intro h
      rw [List.range_succ, List.foldl_append, List.foldl_cons, List.foldl_nil]
      simp only [histBody]
      rw [TH1F.setBinError_name, TH1F.setBinContent_name, ih]

/-- The current builder names the histogram `h_<column>_<tag>`. -/
theorem makeHistogram_name (dataframe : String → List ℚ) (column tag : String) :
    (makeHistogramFromDataFrameColumn dataframe column tag).name
      = "h_" ++ column ++ "_" ++ tag := by
  unfold makeHistogramFromDataFrameColumn
  rw [foldl_histBody_name]
  rfl

/-- Bin contents of the older builder: bin `j` holds `xData[j]` for
`0 ≤ j < nPoints` (day 0 lands in underflow bin 0), every other bin is
zero. -/
theorem makePlot_content (dataframe : String → List ℚ) (column : String) (j : ℕ) :
    (makePlotFromDataFrameColumn dataframe column).content j
      = if j < (dataframe column).length then (dataframe column).getD j 0 else 0 := by
  unfold makePlotFromDataFrameColumn
  rw [foldl_plotBody_content (dataframe column) (dataframe column).length _
    (Nat.le_succ (dataframe column).length)]
  rfl

/-! ### The `.root` container file and `makeAllHistograms` -/

/-- A `.root` container file: the sequence of named objects written into
it (`hist.Write(hist.GetName())` appends a named histogram). -/
abbrev ContainerFile : Type := List (String × TH1F)

/-- ROOT `TFile` open modes used by the script. -/
inductive TFileMode where
  | read
  | recreate

/-- Opening a `TFile` over the current on-disk contents: `'read'` sees
the existing contents, `'recreate'` truncates the file and starts from
an empty container whatever was there before. -/
def TFile.openWith (mode : TFileMode) (disk : ContainerFile) : ContainerFile :=
  match mode with
  | .read => disk
  | .recreate => []

/-- Method `TFile::Get(name)`: the last object written under `name`, or a null
(here: default, zero-bin) histogram if there is none. -/
noncomputable def TFile.get (f : ContainerFile) (name : String) : TH1F :=
  ((f.reverse.find? (fun kv => kv.1 == name)).map Prod.snd).getD
    (TH1F.mk0 "" "" 0 0 0)

/-- The sequence of `hist.Write(hist.GetName())` calls issued by
`makeAllHistograms` (lines 204-219): for each country of `COUNTRY_KEYS`
in order, build the per-country table, then for each `plotKey` of
`DATA_KEYS_TO_PLOT` in order build and write one histogram. -/
noncomputable def makeAllHistogramsWrites (snaps : List (List Row)) : List (String × TH1F) :=
  COUNTRY_KEYS.flatMap (fun country =>
    let data := countryData snaps country
    DATA_KEYS_TO_PLOT.map (fun plotKey =>
      let hist := makeHistogramFromDataFrameColumn (dfColumns data) plotKey country
      (hist.name, hist)))

/-- The container file produced by one `makeAllHistograms` run: the file
`case-reports.root` is opened with mode `'recreate'` (line 200) over
whatever is on disk, and the histograms are written into it. -/
noncomputable def makeAllHistogramsFile (snaps : List (List Row)) (disk : ContainerFile) :
    ContainerFile :=
  TFile.openWith .recreate disk ++ makeAllHistogramsWrites snaps

/-! ### `runAnalysis`: the logistic fit configuration -/

/-- The four-parameter logistic model of the `TF1`
`'[0]/( 1 + [1]*exp(-[2]*(x-[3])) )'` (line 245). -/
noncomputable def logisticFunc (p : Fin 4 → ℝ) (x : ℝ) : ℝ :=
  p 0 / (1 + p 1 * Real.exp (-(p 2) * (x - p 3)))

/-- One curve-fit invocation as configured by the script: which
histogram is fit, the model, the initial parameters, the fit range, and
any parameter limits requested (`SetParLimits` calls; the script issues
none). -/
structure FitSpec where
  histName : String
  model : (Fin 4 → ℝ) → ℝ → ℝ
  funcLo : ℝ
  funcHi : ℝ
  init : Fin 4 → ℝ
  fitLo : ℝ
  fitHi : ℝ
  paramLimits : List (Fin 4 × ℝ × ℝ)

/-- The fit performed by `runAnalysis` (lines 226-250): it reads
`h_Confirmed_USA` from the container, builds the logistic `TF1` on
`(0, nBins+1)` with initial parameters `(1,1,1,0)`, and calls
`hist.Fit(logisticFunc, '', '', 9, nBins)`. -/
noncomputable def runAnalysisFit (file : ContainerFile) : FitSpec :=
  let hist := TFile.get file "h_Confirmed_USA"
  let nBins := hist.nbins
  { histName := "h_Confirmed_USA"
    model := logisticFunc
    funcLo := 0
    funcHi := nBins + 1
    init := ![1, 1, 1, 0]
    fitLo := 9
    fitHi := nBins
    paramLimits := [] }

/-- All curve fits performed during one `runAnalysis` call: exactly the
single `hist.Fit(...)` of line 250. -/
noncomputable def runAnalysisFits (file : ContainerFile) : List FitSpec :=
  [runAnalysisFit file]

/-- After the fit, `runAnalysis` draws and saves
`USA_LogisticFit_To_Confirmed_Cases.pdf` unconditionally: lines 250-274
contain no branch on the fit result or its convergence status, so the
PDF is saved whatever parameters and status the fitter returns. -/
def runAnalysisSavesPdf (_fittedParams : Fin 4 → ℝ) (_fitStatus : ℤ) : Bool :=
  true

/-! ### Command-line dispatch (`__main__`, lines 282-301) -/

/-- The three pipeline stages. -/
inductive Stage where
  | prep
  | plot
  | analyze
deriving DecidableEq

/-- The stages executed for a given flag combination, in execution
order: `-p` → prep only; else `-a` → analysis only; else `-s` → plots
only; else the full pipeline `makeAllHistograms();
makeSummaryPlotsAndSavePDF(); runAnalysis()`. -/
def mainStages (doOnlyDataPrep doOnlySavePlots doOnlyAnalysis : Bool) : List Stage :=
  if doOnlyDataPrep then [.prep]
  else if doOnlyAnalysis then [.analyze]
  else if doOnlySavePlots then [.plot]
  else [.prep, .plot, .analyze]

/-! ### File discovery in `makeAllHistograms` (lines 198-209)

`nPoints = len([fname for fname in os.listdir(DATA_DIR) if '.csv' in
fname])`, after which the loop reads exactly the files
`'COVID-19 Surveillance Dashboard ({0}).csv'.format(ii)` for
`ii in range(nPoints)`; `pd.read_csv` raises if the file is absent.
Filenames are modelled as lists of characters. -/

/-- The characters of `'.csv'`. -/
def csvChars : List Char := ".csv".toList

/-- The Python test `'.csv' in fname`: substring containment. -/
def hasCsv (fname : List Char) : Bool := decide (csvChars <:+: fname)

/-- Decimal rendering of a natural number, as produced by
`'{0}'.format(ii)`. -/
def natChars (n : ℕ) : List Char :=
  if n = 0 then ['0'] else (Nat.digits 10 n).reverse.map Nat.digitChar

/-- The filename `'COVID-19 Surveillance Dashboard ({0}).csv'.format(i)`. -/
def expectedName (i : ℕ) : List Char :=
  "COVID-19 Surveillance Dashboard (".toList ++ natChars i ++ ").csv".toList

/-- Count `nPoints`: the number of entries of the data directory whose name
contains `'.csv'` (line 198). -/
def nPointsOf (dir : List (List Char)) : ℕ := (dir.filter hasCsv).length

/-- Whether the prep loop completes all its `pd.read_csv` calls without
raising: every one of the `nPoints` expected filenames must be present
in the directory. -/
def makeAllHistogramsSucceeds (dir : List (List Char)) : Bool :=
  (List.range (nPointsOf dir)).all (fun i => decide (expectedName i ∈ dir))

theorem makeAllHistogramsSucceeds_iff (dir : List (List Char)) :
    makeAllHistogramsSucceeds dir = true ↔ ∀ i < nPointsOf dir, expectedName i ∈ dir := by
  simp [makeAllHistogramsSucceeds, List.all_eq_true, List.mem_range]

theorem digitChar_inj_lt :
    ∀ a, a < 10 → ∀ b, b < 10 → Nat.digitChar a = Nat.digitChar b → a = b := by
  decide

theorem map_digitChar_inj :
    ∀ (l₁ l₂ : List ℕ), (∀ a ∈ l₁, a < 10) → (∀ a ∈ l₂, a < 10) →
      l₁.map Nat.digitChar = l₂.map Nat.digitChar → l₁ = l₂ := by
  intro l₁
  induction l₁ with
  | nil =>
      intro l₂ _ _ h
      cases l₂ with
      | nil => rfl
      | cons b t => simp at h
  | cons a t ih =>
      intro l₂ h₁ h₂ h
      cases l₂ with
      | nil => simp at h
      | cons b t₂ =>
          simp only [List.map_cons, List.cons.injEq] at h
          have hab : a = b :=
            digitChar_inj_lt a (h₁ a (by simp)) b (h₂ b (by simp)) h.1
          have ht : t = t₂ :=
            ih t₂ (fun x hx => h₁ x (by simp [hx])) (fun x hx => h₂ x (by simp [hx])) h.2
          rw [hab, ht]

theorem natChars_injective : Function.Injective natChars := by
  intro m n h
  unfold natChars at h
  by_cases hm : m = 0 <;> by_cases hn : n = 0
  · rw [hm, hn]
  · exfalso
    rw [if_pos hm, if_neg hn] at h
    have hlen := congrArg List.length h
    simp only [List.length_cons, List.length_nil, List.length_map,
      List.length_reverse] at hlen
    obtain ⟨d, hd⟩ := List.length_eq_one.mp hlen.symm
    rw [hd] at h
    simp only [List.reverse_cons, List.reverse_nil, List.nil_append,
      List.map_cons, List.map_nil, List.cons.injEq, and_true] at h
    have hdmem : d ∈ Nat.digits 10 n := by rw [hd]; simp
    have hd10 : d < 10 := Nat.digits_lt_base (by norm_num) hdmem
    have hd0 : d = 0 := digitChar_inj_lt d hd10 0 (by norm_num) h.symm
    have hdig : Nat.digits 10 n = [0] := by rw [hd, hd0]
    have : n = 0 := by
      have h0 := Nat.ofDigits_digits 10 n
      rw [hdig] at h0
      simpa [Nat.ofDigits] using h0.symm
    exact hn this
  · exfalso
    rw [if_neg hm, if_pos hn] at h
    have hlen := congrArg List.length h
    simp only [List.length_cons, List.length_nil, List.length_map,
      List.length_reverse] at hlen
    obtain ⟨d, hd⟩ := List.length_eq_one.mp hlen
    rw [hd] at h
    simp only [List.reverse_cons, List.reverse_nil, List.nil_append,
      List.map_cons, List.map_nil, List.cons.injEq, and_true] at h
    have hdmem : d ∈ Nat.digits 10 m := by rw [hd]; simp
    have hd10 : d < 10 := Nat.digits_lt_base (by norm_num) hdmem
    have hd0 : d = 0 := digitChar_inj_lt d hd10 0 (by norm_num) h
    have hdig : Nat.digits 10 m = [0] := by rw [hd, hd0]
    have : m = 0 := by
      have h0 := Nat.ofDigits_digits 10 m
      rw [hdig] at h0
      simpa [Nat.ofDigits] using h0.symm
    exact hm this
  · rw [if_neg hm, if_neg hn] at h
    have hrev : (Nat.digits 10 m).reverse = (Nat.digits 10 n).reverse :=
      map_digitChar_inj _ _
        (fun a ha => Nat.digits_lt_base (by norm_num) (List.mem_reverse.mp ha))
        (fun a ha => Nat.digits_lt_base (by norm_num) (List.mem_reverse.mp ha)) h
    have hdig : Nat.digits 10 m = Nat.digits 10 n := List.reverse_injective hrev
    have := congrArg (Nat.ofDigits 10) hdig
    rwa [Nat.ofDigits_digits, Nat.ofDigits_digits] at this

theorem expectedName_injective : Function.Injective expectedName := by
  intro i j h
  unfold expectedName at h
  rw [List.append_assoc, List.append_assoc] at h
  have h2 := List.append_cancel_left h
  have h3 := List.append_cancel_right h2
  exact natChars_injective h3

theorem hasCsv_expectedName (i : ℕ) : hasCsv (expectedName i) = true := by
  have hsuf : csvChars <:+ expectedName i := by
    have h1 : csvChars <:+ ").csv".toList := ⟨[')'], rfl⟩
    exact h1.trans (List.suffix_append _ _)
  obtain ⟨t, ht⟩ := hsuf
  exact decide_eq_true ⟨t, [], by rw [List.append_nil]; exact ht⟩

/-- Pigeonhole argument: if the prep loop completes all its reads, the
`.csv` entries of the directory are exhausted by the `nPoints` expected
filenames; a `.csv` entry that is none of them forces a failed read. -/
theorem makeAllHistograms_fails_of_stray_csv (dir : List (List Char))
    (e : List Char) (he : e ∈ dir) (hcsv : hasCsv e = true)
    (hne : ∀ i < nPointsOf dir, e ≠ expectedName i) :
    makeAllHistogramsSucceeds dir = false := by
  cases hb : makeAllHistogramsSucceeds dir with
  | false => rfl
  | true =>
      exfalso
      have hall := (makeAllHistogramsSucceeds_iff dir).mp hb
      have hsub : (e :: (List.range (nPointsOf dir)).map expectedName)
          ⊆ dir.filter hasCsv := by
        intro x hx
        rcases List.mem_cons.mp hx with hx | hx
        · rw [hx]
          exact List.mem_filter.mpr ⟨he, hcsv⟩
        · obtain ⟨i, hi, hix⟩ := List.mem_map.mp hx
          have hiN : i < nPointsOf dir := List.mem_range.mp hi
          rw [← hix]
          exact List.mem_filter.mpr ⟨hall i hiN, hasCsv_expectedName i⟩
      have hnd2 : (e :: (List.range (nPointsOf dir)).map expectedName).Nodup := by
        rw [List.nodup_cons]
        refine ⟨?_, List.Nodup.map expectedName_injective (List.nodup_range _)⟩
        intro hmem
        obtain ⟨i, hi, hix⟩ := List.mem_map.mp hmem
        exact hne i (List.mem_range.mp hi) hix.symm
      have hlen := (hnd2.subperm hsub).length_le
      simp only [List.length_cons, List.length_map, List.length_range] at hlen
      have : (dir.filter hasCsv).length = nPointsOf dir := rfl
      omega

/-! ### Helper lemmas for the claims -/

/-- The per-country table is the country-filtered concatenation of all
snapshots (in snapshot order) with the `Active` column added. -/
theorem countryData_eq (snaps : List (List Row)) (country : String) :
    countryData snaps country
      = (snaps.flatten.filter (fun r => r.place == country)).map addActive := by
  induction snaps with
  | nil => rfl
  | cons s rest ih =>
      simp only [countryData, getDataForCountry, List.map_cons, List.flatten_cons,
        List.filter_append, List.map_append] at ih ⊢
      rw [ih]

/-- A sample snapshot row used to instantiate hypotheses of the claim
theorems at concrete inputs. -/
def sampleRow : Row :=
  { place := "USA", region := "North America", confirmed := 10, deaths := 1,
    recovered := 2, lastUpdate := "3/16/20" }

/-! ### The claims -/

/-- C1: for every row of every per-country table built during data
preparation, the derived field `Active` equals
`Confirmed − Recovered − Deaths`; the assignment is applied exactly once
per row (each source row passes through `addActive` exactly once, at the
single `df['Active'] = ...` statement of its snapshot's iteration), so
the stored value is exactly this difference of the row's own fields. -/
theorem C1_active_eq_confirmed_sub_recovered_sub_deaths
    (snaps : List (List Row)) (country : String)
    (r : ARow) (hr : r ∈ countryData snaps country) :
    r.active = r.confirmed - r.recovered - r.deaths := by
  rw [countryData_eq] at hr
  obtain ⟨b, _, rfl⟩ := List.mem_map.mp hr
  rfl

/-- Witness for C1 at a one-snapshot, one-row directory. -/
theorem C1_witness :
    (addActive sampleRow).active
      = (addActive sampleRow).confirmed - (addActive sampleRow).recovered
        - (addActive sampleRow).deaths :=
  C1_active_eq_confirmed_sub_recovered_sub_deaths [[sampleRow]] "USA"
    (addActive sampleRow)
    (by simp [countryData, getDataForCountry, sampleRow])

/-- C2: the uncertainty attached to day `i`'s value `v` (stored in bin
`i+1`) is `0.10*v + sqrt(v)`, and the `0.10*v` part lies in the 5–10%
band `[0.05*v, 0.10*v]` for nonnegative `v`. -/
theorem C2_bin_error_formula (dataframe : String → List ℚ) (column tag : String)
    (i : ℕ) (hi : i < (dataframe column).length)
    (hv : 0 ≤ (dataframe column).getD i 0) :
    (makeHistogramFromDataFrameColumn dataframe column tag).error (i + 1)
      = (0.10 : ℝ) * ((dataframe column).getD i 0 : ℝ)
        + Real.sqrt ((dataframe column).getD i 0 : ℝ)
    ∧ (0.05 : ℝ) * ((dataframe column).getD i 0 : ℝ)
        ≤ (0.10 : ℝ) * ((dataframe column).getD i 0 : ℝ) := by
  have hv' : (0 : ℝ) ≤ ((dataframe column).getD i 0 : ℝ) := by exact_mod_cast hv
  constructor
  · rw [makeHistogram_error, if_pos ⟨by omega, by omega⟩]
    have harg : (histDatum (dataframe column) (i + 1 - 1) : ℝ)
        = ((dataframe column).getD i 0 : ℝ) := by
      simp [histDatum, dataScaleFactor]
    rw [histError, harg]
    norm_num [errorScaleFactor]
  · nlinarith

/-- Witness for C2 at the single-day column `[4]`. -/
theorem C2_witness :
    (makeHistogramFromDataFrameColumn (fun _ => [(4 : ℚ)]) "Confirmed" "USA").error (0 + 1)
      = (0.10 : ℝ) * (([(4 : ℚ)].getD 0 0 : ℚ) : ℝ)
        + Real.sqrt (([(4 : ℚ)].getD 0 0 : ℚ) : ℝ)
    ∧ (0.05 : ℝ) * (([(4 : ℚ)].getD 0 0 : ℚ) : ℝ)
        ≤ (0.10 : ℝ) * (([(4 : ℚ)].getD 0 0 : ℚ) : ℝ) :=
  C2_bin_error_formula (fun _ => [(4 : ℚ)]) "Confirmed" "USA" 0 (by decide) (by decide)

/-- C3: `runAnalysis` performs exactly one curve fit, on the histogram
named `h_Confirmed_USA` (the US Confirmed series), with the
four-parameter logistic model `p0/(1 + p1*exp(-p2*(x-p3)))`, initial
parameters `(1,1,1,0)`, fit range from `9` to the histogram's number of
bins, no parameter limits, and the resulting PDF is saved whatever the
fitter returns (no convergence validation). -/
theorem C3_fit_configuration (file : ContainerFile) :
    runAnalysisFits file = [runAnalysisFit file]
    ∧ (runAnalysisFit file).histName = "h_Confirmed_USA"
    ∧ (∀ p x, (runAnalysisFit file).model p x
        = p 0 / (1 + p 1 * Real.exp (-(p 2) * (x - p 3))))
    ∧ (runAnalysisFit file).init = ![1, 1, 1, 0]
    ∧ (runAnalysisFit file).fitLo = 9
    ∧ (runAnalysisFit file).fitHi = (TFile.get file "h_Confirmed_USA").nbins
    ∧ (runAnalysisFit file).paramLimits = []
    ∧ (∀ params status, runAnalysisSavesPdf params status = true) :=
  ⟨rfl, rfl, fun _ _ => rfl, rfl, rfl, rfl, rfl, fun _ _ => rfl⟩

/-- C4: the container produced by a prep run is a pure function of the
input snapshots: the `'recreate'` open truncates the file, so any two
prior on-disk contents yield the same result, namely exactly the
histograms written by this run. -/
theorem C4_container_overwrite (snaps : List (List Row)) (disk disk' : ContainerFile) :
    makeAllHistogramsFile snaps disk = makeAllHistogramsFile snaps disk'
    ∧ makeAllHistogramsFile snaps disk = makeAllHistogramsWrites snaps := by
  constructor
  · rfl
  · unfold makeAllHistogramsFile TFile.openWith
    exact List.nil_append _

/-- C5: for a column of length `n` the builder makes a histogram with
`n+1` bins holding one value per day: day `i`'s value is stored at bin
`i+1`, and the zeroth (underflow) bin stays empty. -/
theorem C5_one_bin_per_day (dataframe : String → List ℚ) (column tag : String)
    (i : ℕ) (hi : i < (dataframe column).length) :
    (makeHistogramFromDataFrameColumn dataframe column tag).content (i + 1)
        = (dataframe column).getD i 0
    ∧ (makeHistogramFromDataFrameColumn dataframe column tag).content 0 = 0
    ∧ (makeHistogramFromDataFrameColumn dataframe column tag).nbins
        = (dataframe column).length + 1 := by
  refine ⟨?_, ?_, makeHistogram_nbins dataframe column tag⟩
  · rw [makeHistogram_content, if_pos ⟨by omega, by omega⟩]
    simp [histDatum, dataScaleFactor]
  · rw [makeHistogram_content, if_neg (by omega)]

/-- Witness for C5 at the single-day column `[4]`. -/
theorem C5_witness :
    (makeHistogramFromDataFrameColumn (fun _ => [(4 : ℚ)]) "Confirmed" "USA").content 1 = 4
    ∧ (makeHistogramFromDataFrameColumn (fun _ => [(4 : ℚ)]) "Confirmed" "USA").content 0 = 0
    ∧ (makeHistogramFromDataFrameColumn (fun _ => [(4 : ℚ)]) "Confirmed" "USA").nbins = 2 := by
  have h := C5_one_bin_per_day (fun _ => [(4 : ℚ)]) "Confirmed" "USA" 0 (by decide)
  simpa using h

/-- C6: the per-country table contains exactly the rows whose `Place`
field equals the country string, concatenated in snapshot-index order
(the `flatten` of the per-snapshot filters, snapshots taken in file
index order 0,1,...,N-1), each with its `Active` column added. -/
theorem C6_country_table_rows (snaps : List (List Row)) (country : String) :
    countryData snaps country
      = (snaps.flatten.filter (fun r => r.place == country)).map addActive
    ∧ ∀ r ∈ countryData snaps country, r.place = country := by
  refine ⟨countryData_eq snaps country, ?_⟩
  intro r hr
  rw [countryData_eq] at hr
  obtain ⟨b, hb, rfl⟩ := List.mem_map.mp hr
  have hpb := (List.mem_filter.mp hb).2
  exact eq_of_beq hpb

/-- Witness for C6 at a one-snapshot, one-row directory. -/
theorem C6_witness : (addActive sampleRow).place = "USA" :=
  (C6_country_table_rows [[sampleRow]] "USA").2 (addActive sampleRow)
    (by simp [countryData, getDataForCountry, sampleRow])

/-- The names written by the prep step, in write order. -/
theorem makeAllHistogramsWrites_names (snaps : List (List Row)) :
    (makeAllHistogramsWrites snaps).map Prod.fst
      = COUNTRY_KEYS.flatMap (fun c => ["h_Confirmed_" ++ c, "h_Active_" ++ c]) := by
  unfold makeAllHistogramsWrites
  rw [List.map_flatMap]
  congr 1
  funext c
  simp [DATA_KEYS_TO_PLOT, makeHistogram_name]

/-- C7: the prep step writes, for every country of the configured list
and every metric in `{Confirmed, Active}`, exactly one histogram named
`h_<metric>_<country>` into the container, and nothing else. -/
theorem C7_one_histogram_per_country_and_metric (snaps : List (List Row)) :
    (makeAllHistogramsWrites snaps).map Prod.fst
      = COUNTRY_KEYS.flatMap (fun c => ["h_Confirmed_" ++ c, "h_Active_" ++ c])
    ∧ ∀ c ∈ COUNTRY_KEYS, ∀ m ∈ DATA_KEYS_TO_PLOT,
        ((makeAllHistogramsWrites snaps).map Prod.fst).count ("h_" ++ m ++ "_" ++ c)
          = 1 := by
  refine ⟨makeAllHistogramsWrites_names snaps, ?_⟩
  simp only [makeAllHistogramsWrites_names snaps]
  decide

/-- Witness for C7: the `USA`/`Confirmed` histogram is written exactly
once. -/
theorem C7_witness :
    ((makeAllHistogramsWrites []).map Prod.fst).count
      ("h_" ++ "Confirmed" ++ "_" ++ "USA") = 1 :=
  (C7_one_histogram_per_country_and_metric []).2 "USA" (by decide)
    "Confirmed" (by decide)

/-- C8: with no mode flag the whole pipeline runs in order prep → plot →
analyze; each single-mode flag runs exactly its own stage. -/
theorem C8_dispatch_order :
    mainStages false false false = [Stage.prep, Stage.plot, Stage.analyze]
    ∧ mainStages true false false = [Stage.prep]
    ∧ mainStages false true false = [Stage.plot]
    ∧ mainStages false false true = [Stage.analyze] :=
  ⟨rfl, rfl, rfl, rfl⟩

/-- C9: the prep step counts the directory entries containing `.csv` to
get `nPoints`, completes without a read error exactly when all of the
filenames `COVID-19 Surveillance Dashboard (i).csv`, `i < nPoints`,
exist, and any `.csv` entry that is not one of those expected names
makes some read fail. -/
theorem C9_csv_discovery (dir : List (List Char)) :
    nPointsOf dir = (dir.filter hasCsv).length
    ∧ (makeAllHistogramsSucceeds dir = true ↔ ∀ i < nPointsOf dir, expectedName i ∈ dir)
    ∧ (∀ e ∈ dir, hasCsv e = true → (∀ i < nPointsOf dir, e ≠ expectedName i) →
        makeAllHistogramsSucceeds dir = false) :=
  ⟨rfl, makeAllHistogramsSucceeds_iff dir,
    fun e he hcsv hne => makeAllHistograms_fails_of_stray_csv dir e he hcsv hne⟩

/-- Witness for C9: a directory holding only the stray `x.csv` makes the
prep reads fail. -/
theorem C9_witness : makeAllHistogramsSucceeds ["x.csv".toList] = false :=
  (C9_csv_discovery ["x.csv".toList]).2.2 "x.csv".toList (by decide) (by decide)
    (by decide)

/-- C10: the two builder versions are not equivalent: for the same input
column the newer builder's bin contents are the older builder's shifted
up by one bin index (the old builder put day 0 in underflow bin 0, the
new one puts it in bin 1), and on the column `[1]` they differ at bin 1. -/
theorem C10_builder_versions_shifted (dataframe : String → List ℚ)
    (column tag : String) (j : ℕ) :
    (makeHistogramFromDataFrameColumn dataframe column tag).content (j + 1)
      = (makePlotFromDataFrameColumn dataframe column).content j
    ∧ (makeHistogramFromDataFrameColumn (fun _ => [(1 : ℚ)]) "Confirmed" "t").content 1
        ≠ (makePlotFromDataFrameColumn (fun _ => [(1 : ℚ)]) "Confirmed").content 1 := by
  constructor
  · rw [makeHistogram_content, makePlot_content]
    by_cases hj : j < (dataframe column).length
    · rw [if_pos ⟨by omega, by omega⟩, if_pos hj]
      simp [histDatum, dataScaleFactor]
    · rw [if_neg (by omega), if_neg hj]
  · rw [makeHistogram_content, makePlot_content]
    norm_num [histDatum, dataScaleFactor]

end PandemicModel
